import Mathlib

/-!
Verification of the sunset-quality scoring core of the repository
(frontend/src/components/SunsetCard.tsx): the functions
`toFiniteNumber`, `calculateSunsetScore` and `clampScore`.

JavaScript numbers are modelled as `JSNum`: an exact rational together
with the special values NaN, +Infinity and -Infinity.  The arithmetic
operations used by the scoring code (addition, subtraction,
multiplication, absolute value, `Math.max`) are given their JavaScript
semantics on the special values and exact rational arithmetic on finite
values.  A field of the `predicted` object is a `FieldVal`: absent
(undefined), null, or a JavaScript number.
-/

/-- A JavaScript number: a finite value (modelled exactly as a rational),
NaN, positive infinity or negative infinity. -/
inductive JSNum : Type where
  | fin (q : ℚ)
  | nan
  | inf
  | ninf
deriving DecidableEq, Repr

namespace JSNum

/-- JavaScript addition on numbers. -/
def add : JSNum → JSNum → JSNum
  | nan, _ => nan
  | _, nan => nan
  | inf, ninf => nan
  | ninf, inf => nan
  | inf, _ => inf
  | _, inf => inf
  | ninf, _ => ninf
  | _, ninf => ninf
  | fin a, fin b => fin (a + b)

/-- JavaScript subtraction on numbers. -/
def sub : JSNum → JSNum → JSNum
  | nan, _ => nan
  | _, nan => nan
  | inf, inf => nan
  | ninf, ninf => nan
  | inf, _ => inf
  | _, ninf => inf
  | ninf, _ => ninf
  | _, inf => ninf
  | fin a, fin b => fin (a - b)

/-- JavaScript multiplication on numbers. -/
def mul : JSNum → JSNum → JSNum
  | nan, _ => nan
  | _, nan => nan
  | fin a, fin b => fin (a * b)
  | inf, fin b => if 0 < b then inf else if b < 0 then ninf else nan
  | ninf, fin b => if 0 < b then ninf else if b < 0 then inf else nan
  | fin a, inf => if 0 < a then inf else if a < 0 then ninf else nan
  | fin a, ninf => if 0 < a then ninf else if a < 0 then inf else nan
  | inf, inf => inf
  | inf, ninf => ninf
  | ninf, inf => ninf
  | ninf, ninf => inf

/-- JavaScript Math.abs. -/
def jabs : JSNum → JSNum
  | fin a => fin |a|
  | nan => nan
  | inf => inf
  | ninf => inf

/-- JavaScript Math.max of two numbers. -/
def jmax : JSNum → JSNum → JSNum
  | nan, _ => nan
  | _, nan => nan
  | inf, _ => inf
  | _, inf => inf
  | ninf, b => b
  | a, ninf => a
  | fin a, fin b => fin (max a b)

/-- Number.isFinite. -/
def isFinite : JSNum → Bool
  | fin _ => true
  | _ => false

end JSNum

/-- A value supplied for one field of the `predicted` object: absent
(undefined), null, or a JavaScript number. -/
inductive FieldVal : Type where
  | undef
  | nullv
  | num (v : JSNum)
deriving DecidableEq, Repr

/-- The `predicted` object of a `SunsetForecastResponse`: three optional
numeric fields. -/
structure Predicted : Type where
  cloudCover_pct : FieldVal
  humidity_pct : FieldVal
  pm25_ugm3 : FieldVal
deriving DecidableEq, Repr

/-- Embedding of `toFiniteNumber(value, fallback)`: returns the value when
it is a number passing `Number.isFinite`, otherwise the fallback. -/
def toFiniteNumber (value : FieldVal) (fallback : ℚ) : JSNum :=
  match value with
  | .num (.fin q) => .fin q
  | _ => .fin fallback

/-- JavaScript Math.round on a finite value: nearest integer with ties
rounded toward positive infinity. -/
def jsRound (q : ℚ) : ℤ := ⌊q + 1 / 2⌋

/-- Embedding of `clampScore(value)`: 0 for a non-finite argument,
otherwise `Math.max(0, Math.min(100, Math.round(value)))`. -/
def clampScore : JSNum → ℤ
  | .fin q => max 0 (min 100 (jsRound q))
  | _ => 0

/-- The cloud term of `calculateSunsetScore`:
`Math.max(0, 35 - Math.abs(45 - clouds) * 0.7)`. -/
def cloudTermJS (clouds : JSNum) : JSNum :=
  JSNum.jmax (.fin 0)
    (JSNum.sub (.fin 35)
      (JSNum.mul (JSNum.jabs (JSNum.sub (.fin 45) clouds)) (.fin (7 / 10))))

/-- The humidity term of `calculateSunsetScore`:
`Math.max(0, 20 - Math.max(0, humidity - 55) * 0.5)`. -/
def humidityTermJS (humidity : JSNum) : JSNum :=
  JSNum.jmax (.fin 0)
    (JSNum.sub (.fin 20)
      (JSNum.mul (JSNum.jmax (.fin 0) (JSNum.sub humidity (.fin 55))) (.fin (1 / 2))))

/-- The PM2.5 term of `calculateSunsetScore`:
`Math.max(0, 30 - Math.max(0, pm - 12) * 2)`. -/
def pmTermJS (pm : JSNum) : JSNum :=
  JSNum.jmax (.fin 0)
    (JSNum.sub (.fin 30)
      (JSNum.mul (JSNum.jmax (.fin 0) (JSNum.sub pm (.fin 12))) (.fin 2)))

/-- The baseline constant added by `calculateSunsetScore`. -/
def baseline : ℚ := 15

/-- The raw score expression of `calculateSunsetScore`, the value passed
to `clampScore`: `cloudTerm + humidityTerm + pmTerm + baseline` on the
normalized inputs. -/
def scoreRawArg (predicted : Predicted) : JSNum :=
  let clouds := toFiniteNumber predicted.cloudCover_pct 60
  let humidity := toFiniteNumber predicted.humidity_pct 65
  let pm := toFiniteNumber predicted.pm25_ugm3 12
  JSNum.add
    (JSNum.add (JSNum.add (cloudTermJS clouds) (humidityTermJS humidity)) (pmTermJS pm))
    (.fin baseline)

/-- Embedding of `calculateSunsetScore(predicted)`: null for an absent
argument, otherwise the clamped raw score. -/
def calculateSunsetScore : Option Predicted → Option ℤ
  | none => none
  | some predicted => some (clampScore (scoreRawArg predicted))

/-- Modelled from the spec: the cloud term formula stated in the spec,
`max(0, 35 - abs(45 - cloudCoverPct) * 0.7)`, over exact rationals. -/
def cloudTermSpec (c : ℚ) : ℚ := max 0 (35 - |45 - c| * (7 / 10))

/-- Modelled from the spec: the humidity term formula stated in the spec,
`max(0, 20 - max(0, humidityPct - 55) * 0.5)`, over exact rationals. -/
def humidityTermSpec (h : ℚ) : ℚ := max 0 (20 - max 0 (h - 55) * (1 / 2))

/-- Modelled from the spec: the PM2.5 term formula stated in the spec,
`max(0, 30 - max(0, pm25 - 12) * 2)`, over exact rationals. -/
def pmTermSpec (p : ℚ) : ℚ := max 0 (30 - max 0 (p - 12) * 2)

/-- Modelled from the spec: the raw score as the spec states it,
`cloudTerm + humidityTerm + pmTerm + 15`. -/
def rawScoreSpec (c h p : ℚ) : ℚ :=
  cloudTermSpec c + humidityTermSpec h + pmTermSpec p + 15

/-- The rational value that normalization produces for a field: the
supplied value when it is a finite number, the fallback otherwise. -/
def normValue (value : FieldVal) (fallback : ℚ) : ℚ :=
  match value with
  | .num (.fin q) => q
  | _ => fallback

lemma toFiniteNumber_eq_fin (value : FieldVal) (fallback : ℚ) :
    toFiniteNumber value fallback = .fin (normValue value fallback) := by
  cases value with
  | undef => rfl
  | nullv => rfl
  | num v => cases v <;> rfl

lemma cloudTermJS_fin (c : ℚ) : cloudTermJS (.fin c) = .fin (cloudTermSpec c) := rfl

lemma humidityTermJS_fin (h : ℚ) :
    humidityTermJS (.fin h) = .fin (humidityTermSpec h) := rfl

lemma pmTermJS_fin (p : ℚ) : pmTermJS (.fin p) = .fin (pmTermSpec p) := rfl

lemma scoreRawArg_eq_fin (predicted : Predicted) :
    scoreRawArg predicted =
      .fin (rawScoreSpec (normValue predicted.cloudCover_pct 60)
        (normValue predicted.humidity_pct 65) (normValue predicted.pm25_ugm3 12)) := by
  simp only [scoreRawArg, toFiniteNumber_eq_fin, cloudTermJS_fin, humidityTermJS_fin,
    pmTermJS_fin]
  rfl

lemma calculateSunsetScore_some (predicted : Predicted) :
    calculateSunsetScore (some predicted) =
      some (max 0 (min 100 (jsRound
        (rawScoreSpec (normValue predicted.cloudCover_pct 60)
          (normValue predicted.humidity_pct 65)
          (normValue predicted.pm25_ugm3 12))))) := by
  rw [calculateSunsetScore, scoreRawArg_eq_fin]
  rfl

lemma cloudTermSpec_nonneg (c : ℚ) : 0 ≤ cloudTermSpec c := le_max_left _ _

lemma cloudTermSpec_le (c : ℚ) : cloudTermSpec c ≤ 35 := by
  refine max_le (by norm_num) ?_
  have h : 0 ≤ |45 - c| * (7 / 10) := by positivity
  linarith

lemma humidityTermSpec_nonneg (h : ℚ) : 0 ≤ humidityTermSpec h := le_max_left _ _

lemma humidityTermSpec_le (h : ℚ) : humidityTermSpec h ≤ 20 := by
  refine max_le (by norm_num) ?_
  have hm : 0 ≤ max 0 (h - 55) * (1 / 2) := by positivity
  linarith

lemma pmTermSpec_nonneg (p : ℚ) : 0 ≤ pmTermSpec p := le_max_left _ _

lemma pmTermSpec_le (p : ℚ) : pmTermSpec p ≤ 30 := by
  refine max_le (by norm_num) ?_
  have hm : 0 ≤ max 0 (p - 12) * 2 := by positivity
  linarith

lemma rawScoreSpec_lb (c h p : ℚ) : 15 ≤ rawScoreSpec c h p := by
  have h1 := cloudTermSpec_nonneg c
  have h2 := humidityTermSpec_nonneg h
  have h3 := pmTermSpec_nonneg p
  unfold rawScoreSpec
  linarith

lemma rawScoreSpec_ub (c h p : ℚ) : rawScoreSpec c h p ≤ 100 := by
  have h1 := cloudTermSpec_le c
  have h2 := humidityTermSpec_le h
  have h3 := pmTermSpec_le p
  unfold rawScoreSpec
  linarith

lemma jsRound_ge (q : ℚ) (h : 15 ≤ q) : (15 : ℤ) ≤ jsRound q := by
  rw [jsRound, Int.le_floor]
  push_cast
  linarith

lemma jsRound_le (q : ℚ) (h : q ≤ 100) : jsRound q ≤ 100 := by
  have h2 : ⌊q + 1 / 2⌋ < (101 : ℤ) := by
    rw [Int.floor_lt]
    push_cast
    linarith
  rw [jsRound]
  omega

lemma score_bounds (predicted : Predicted) :
    ∃ z : ℤ, calculateSunsetScore (some predicted) = some z ∧ 15 ≤ z ∧ z ≤ 100 := by
  rw [calculateSunsetScore_some]
  set c := normValue predicted.cloudCover_pct 60
  set h := normValue predicted.humidity_pct 65
  set p := normValue predicted.pm25_ugm3 12
  have hlb := jsRound_ge _ (rawScoreSpec_lb c h p)
  have hub := jsRound_le _ (rawScoreSpec_ub c h p)
  exact ⟨_, rfl, by omega, by omega⟩

lemma cloudTermSpec_mono_dist {a b : ℚ} (hd : |45 - a| ≤ |45 - b|) :
    cloudTermSpec b ≤ cloudTermSpec a := by
  refine max_le_max le_rfl ?_
  have hm : |45 - a| * (7 / 10) ≤ |45 - b| * (7 / 10) :=
    mul_le_mul_of_nonneg_right hd (by norm_num)
  linarith

lemma cloudTermSpec_strict {a b : ℚ} (hd : |45 - a| < |45 - b|)
    (hpos : 0 < cloudTermSpec a) : cloudTermSpec b < cloudTermSpec a := by
  unfold cloudTermSpec at hpos ⊢
  have hx : 0 < 35 - |45 - a| * (7 / 10) := by
    rcases lt_max_iff.mp hpos with h0 | h0
    · exact absurd h0 (lt_irrefl 0)
    · exact h0
  rw [max_eq_right hx.le]
  refine max_lt hx ?_
  have hm : |45 - a| * (7 / 10) < |45 - b| * (7 / 10) :=
    mul_lt_mul_of_pos_right hd (by norm_num)
  linarith

lemma humidityTermSpec_anti {a b : ℚ} (hab : a ≤ b) :
    humidityTermSpec b ≤ humidityTermSpec a := by
  refine max_le_max le_rfl ?_
  have hm : max 0 (a - 55) * (1 / 2) ≤ max 0 (b - 55) * (1 / 2) :=
    mul_le_mul_of_nonneg_right (max_le_max le_rfl (by linarith)) (by norm_num)
  linarith

lemma pmTermSpec_anti {a b : ℚ} (hab : a ≤ b) : pmTermSpec b ≤ pmTermSpec a := by
  refine max_le_max le_rfl ?_
  have hm : max 0 (a - 12) * 2 ≤ max 0 (b - 12) * 2 :=
    mul_le_mul_of_nonneg_right (max_le_max le_rfl (by linarith)) (by norm_num)
  linarith

/-- Claim C1: for every input triple of finite numbers, the raw score computed
by calculateSunsetScore before finalization equals
cloudTerm + humidityTerm + pmTerm + 15, where the three terms are given by the
formulas of the spec: cloudTerm = max(0, 35 - abs(45 - cloudCoverPct) * 0.7),
humidityTerm = max(0, 20 - max(0, humidityPct - 55) * 0.5) and
pmTerm = max(0, 30 - max(0, pm25 - 12) * 2). -/
theorem C1_raw_score_formula (c h p : ℚ) :
    scoreRawArg ⟨.num (.fin c), .num (.fin h), .num (.fin p)⟩ =
      .fin (cloudTermSpec c + humidityTermSpec h + pmTermSpec p + 15) := by
  rw [scoreRawArg_eq_fin]
  rfl

/-- Claim C2: for every input reading whose three fields are each absent,
null, or any number (including NaN and infinities), the composed pipeline
calculateSunsetScore applied to a non-null predicted object returns an
integer in the interval from 0 to 100 inclusive. -/
theorem C2_pipeline_in_range (f1 f2 f3 : FieldVal) :
    ∃ z : ℤ, calculateSunsetScore (some ⟨f1, f2, f3⟩) = some z ∧ 0 ≤ z ∧ z ≤ 100 := by
  obtain ⟨z, hz, h1, h2⟩ := score_bounds ⟨f1, f2, f3⟩
  exact ⟨z, hz, by omega, h2⟩

/-- Claim C3: for each field independently, an absent, null or non-finite
value is replaced by the fallback constant (cloud cover 60, humidity 65,
PM2.5 12) and a finite value passes through unchanged; consequently scoring a
reading with one field absent (or NaN) gives exactly the same result as
scoring a reading with that field set to its fallback constant, for every
choice of the other two fields. -/
theorem C3_fallback_equivalence :
    (∀ q fb : ℚ, toFiniteNumber (.num (.fin q)) fb = .fin q) ∧
    (∀ fb : ℚ, toFiniteNumber .undef fb = .fin fb ∧ toFiniteNumber .nullv fb = .fin fb ∧
      toFiniteNumber (.num .nan) fb = .fin fb ∧ toFiniteNumber (.num .inf) fb = .fin fb ∧
      toFiniteNumber (.num .ninf) fb = .fin fb) ∧
    (∀ f2 f3 : FieldVal,
      calculateSunsetScore (some ⟨.undef, f2, f3⟩) =
        calculateSunsetScore (some ⟨.num (.fin 60), f2, f3⟩) ∧
      calculateSunsetScore (some ⟨.num .nan, f2, f3⟩) =
        calculateSunsetScore (some ⟨.num (.fin 60), f2, f3⟩)) ∧
    (∀ f1 f3 : FieldVal,
      calculateSunsetScore (some ⟨f1, .undef, f3⟩) =
        calculateSunsetScore (some ⟨f1, .num (.fin 65), f3⟩) ∧
      calculateSunsetScore (some ⟨f1, .num .nan, f3⟩) =
        calculateSunsetScore (some ⟨f1, .num (.fin 65), f3⟩)) ∧
    (∀ f1 f2 : FieldVal,
      calculateSunsetScore (some ⟨f1, f2, .undef⟩) =
        calculateSunsetScore (some ⟨f1, f2, .num (.fin 12)⟩) ∧
      calculateSunsetScore (some ⟨f1, f2, .num .nan⟩) =
        calculateSunsetScore (some ⟨f1, f2, .num (.fin 12)⟩)) := by
  refine ⟨fun q fb => rfl, fun fb => ⟨rfl, rfl, rfl, rfl, rfl⟩,
    fun f2 f3 => ⟨?_, ?_⟩, fun f1 f3 => ⟨?_, ?_⟩, fun f1 f2 => ⟨?_, ?_⟩⟩ <;>
    simp only [calculateSunsetScore, scoreRawArg, toFiniteNumber]

/-- Claim C4: clampScore maps a non-finite raw score to 0, and otherwise
rounds to the nearest integer with ties toward positive infinity (the rounded
value is the unique integer r with rawScore - 1/2 < r <= rawScore + 1/2) and
clamps to the interval from 0 to 100; in particular, with all three fields
absent the normalized inputs are (60, 65, 12), the raw score is 84.5 and the
final score is 85. -/
theorem C4_clamp_finalize :
    clampScore .nan = 0 ∧ clampScore .inf = 0 ∧ clampScore .ninf = 0 ∧
    (∀ q : ℚ, clampScore (.fin q) = max 0 (min 100 (jsRound q)) ∧
      q - 1 / 2 < (jsRound q : ℚ) ∧ (jsRound q : ℚ) ≤ q + 1 / 2) ∧
    normValue FieldVal.undef 60 = 60 ∧ normValue FieldVal.undef 65 = 65 ∧
    normValue FieldVal.undef 12 = 12 ∧
    scoreRawArg ⟨.undef, .undef, .undef⟩ = .fin (169 / 2) ∧
    calculateSunsetScore (some ⟨.undef, .undef, .undef⟩) = some 85 := by
  refine ⟨rfl, rfl, rfl, fun q => ⟨rfl, ?_, Int.floor_le _⟩, rfl, rfl, rfl, ?_, ?_⟩
  · have h := Int.lt_floor_add_one (q + 1 / 2)
    rw [jsRound]
    linarith
  · rw [scoreRawArg_eq_fin]
    norm_num [normValue, rawScoreSpec, cloudTermSpec, humidityTermSpec, pmTermSpec,
      abs, max_def]
  · rw [calculateSunsetScore_some]
    norm_num [normValue, rawScoreSpec, cloudTermSpec, humidityTermSpec, pmTermSpec,
      jsRound, abs, max_def]

/-- Claim C5: the scoring core is total and never signals failure: for every
input with a present predicted object it returns an integer score, with no
error value. -/
theorem C5_total_integer (f1 f2 f3 : FieldVal) :
    ∃ z : ℤ, calculateSunsetScore (some ⟨f1, f2, f3⟩) = some z := by
  obtain ⟨z, hz, -, -⟩ := score_bounds ⟨f1, f2, f3⟩
  exact ⟨z, hz⟩

/-- Claim C6 counterexample: the claim asserts that for 45 <= a < b the cloud
term at a strictly exceeds the cloud term at b; at a = 95 and b = 105 both
cloud terms are 0 because the term saturates at its lower bound, so the
strict inequality fails. -/
theorem C6_counterexample :
    (45 : ℚ) ≤ 95 ∧ (95 : ℚ) < 105 ∧
      cloudTermJS (.fin 95) = .fin (cloudTermSpec 95) ∧
      cloudTermJS (.fin 105) = .fin (cloudTermSpec 105) ∧
      cloudTermSpec 95 = 0 ∧ cloudTermSpec 105 = 0 ∧
      ¬ cloudTermSpec 105 < cloudTermSpec 95 := by
  refine ⟨by norm_num, by norm_num, rfl, rfl, ?_, ?_, ?_⟩ <;>
    norm_num [cloudTermSpec, abs, max_def]

/-- Claim C6 (amended): holding the other inputs fixed, for two cloud-cover
values on the same side of 45 with a nearer to 45 than b, the cloud term at b
never exceeds the cloud term at a, and is strictly smaller whenever the cloud
term at a is positive. -/
theorem C6_cloudTerm_decreasing (a b : ℚ)
    (hside : (45 ≤ a ∧ a < b) ∨ (b < a ∧ a ≤ 45)) :
    cloudTermJS (.fin a) = .fin (cloudTermSpec a) ∧
    cloudTermJS (.fin b) = .fin (cloudTermSpec b) ∧
    cloudTermSpec b ≤ cloudTermSpec a ∧
    (0 < cloudTermSpec a → cloudTermSpec b < cloudTermSpec a) := by
  have hd : |45 - a| < |45 - b| := by
    rcases hside with ⟨h1, h2⟩ | ⟨h1, h2⟩
    · rw [abs_of_nonpos (by linarith), abs_of_nonpos (by linarith)]
      linarith
    · rw [abs_of_nonneg (by linarith), abs_of_nonneg (by linarith)]
      linarith
  exact ⟨rfl, rfl, cloudTermSpec_mono_dist hd.le, cloudTermSpec_strict hd⟩

/-- Witness for the amended claim C6 at the concrete pair a = 50, b = 60. -/
theorem C6_cloudTerm_decreasing_witness :
    cloudTermJS (.fin 50) = .fin (cloudTermSpec 50) ∧
    cloudTermJS (.fin 60) = .fin (cloudTermSpec 60) ∧
    cloudTermSpec 60 ≤ cloudTermSpec 50 ∧
    (0 < cloudTermSpec 50 → cloudTermSpec 60 < cloudTermSpec 50) :=
  C6_cloudTerm_decreasing 50 60 (Or.inl ⟨by norm_num, by norm_num⟩)

/-- Claim C7: holding the other inputs fixed, the humidity term is
non-increasing in the humidity for values above 55, and the PM2.5 term is
non-increasing in the PM2.5 concentration for values above 12. -/
theorem C7_terms_antitone (a b c d : ℚ) (_hha : 55 < a) (hab : a ≤ b)
    (_hpc : 12 < c) (hcd : c ≤ d) :
    humidityTermJS (.fin a) = .fin (humidityTermSpec a) ∧
    humidityTermJS (.fin b) = .fin (humidityTermSpec b) ∧
    humidityTermSpec b ≤ humidityTermSpec a ∧
    pmTermJS (.fin c) = .fin (pmTermSpec c) ∧
    pmTermJS (.fin d) = .fin (pmTermSpec d) ∧
    pmTermSpec d ≤ pmTermSpec c :=
  ⟨rfl, rfl, humidityTermSpec_anti hab, rfl, rfl, pmTermSpec_anti hcd⟩

/-- Witness for claim C7 at humidity 60 and 80 and PM2.5 15 and 20. -/
theorem C7_terms_antitone_witness :
    humidityTermJS (.fin 60) = .fin (humidityTermSpec 60) ∧
    humidityTermJS (.fin 80) = .fin (humidityTermSpec 80) ∧
    humidityTermSpec 80 ≤ humidityTermSpec 60 ∧
    pmTermJS (.fin 15) = .fin (pmTermSpec 15) ∧
    pmTermJS (.fin 20) = .fin (pmTermSpec 20) ∧
    pmTermSpec 20 ≤ pmTermSpec 15 :=
  C7_terms_antitone 60 80 15 20 (by norm_num) (by norm_num) (by norm_num) (by norm_num)

/-- Claim C8: the pipeline reproduces the documented test vectors:
(45, 50, 10) gives final score 100; (42, 68, 7.4) gives raw score 91.4 and
final score 91; (100, 100, 100) gives raw score 15 and final score 15. -/
theorem C8_test_vectors :
    calculateSunsetScore (some ⟨.num (.fin 45), .num (.fin 50), .num (.fin 10)⟩) =
      some 100 ∧
    scoreRawArg ⟨.num (.fin 42), .num (.fin 68), .num (.fin (37 / 5))⟩ =
      .fin (457 / 5) ∧
    calculateSunsetScore (some ⟨.num (.fin 42), .num (.fin 68), .num (.fin (37 / 5))⟩) =
      some 91 ∧
    scoreRawArg ⟨.num (.fin 100), .num (.fin 100), .num (.fin 100)⟩ = .fin 15 ∧
    calculateSunsetScore (some ⟨.num (.fin 100), .num (.fin 100), .num (.fin 100)⟩) =
      some 15 := by
  refine ⟨?_, ?_, ?_, ?_, ?_⟩ <;>
    first
      | (rw [calculateSunsetScore_some]
         norm_num [normValue, rawScoreSpec, cloudTermSpec, humidityTermSpec, pmTermSpec,
          jsRound, abs, max_def])
      | (rw [scoreRawArg_eq_fin]
         norm_num [normValue, rawScoreSpec, cloudTermSpec, humidityTermSpec, pmTermSpec,
          abs, max_def])

/-- Claim C9: the three weighted terms are bounded below by 0 and above by
their caps 35, 20 and 30, and the constant baseline 15 is always added, so
for every reading with a present predicted object the returned score lies in
the interval from 15 to 100. -/
theorem C9_score_at_least_baseline (f1 f2 f3 : FieldVal) (c h p : ℚ) :
    (0 ≤ cloudTermSpec c ∧ cloudTermSpec c ≤ 35) ∧
    (0 ≤ humidityTermSpec h ∧ humidityTermSpec h ≤ 20) ∧
    (0 ≤ pmTermSpec p ∧ pmTermSpec p ≤ 30) ∧
    ∃ z : ℤ, calculateSunsetScore (some ⟨f1, f2, f3⟩) = some z ∧ 15 ≤ z ∧ z ≤ 100 :=
  ⟨⟨cloudTermSpec_nonneg c, cloudTermSpec_le c⟩,
    ⟨humidityTermSpec_nonneg h, humidityTermSpec_le h⟩,
    ⟨pmTermSpec_nonneg p, pmTermSpec_le p⟩, score_bounds ⟨f1, f2, f3⟩⟩

/-- Claim C10: for every reading with a present predicted object, the value
passed from calculateSunsetScore into clampScore is a finite number, so the
defensive branch of clampScore returning 0 on a non-finite argument is not
taken on this call path. -/
theorem C10_raw_always_finite (f1 f2 f3 : FieldVal) :
    ∃ q : ℚ, scoreRawArg ⟨f1, f2, f3⟩ = .fin q ∧
      JSNum.isFinite (scoreRawArg ⟨f1, f2, f3⟩) = true ∧
      clampScore (scoreRawArg ⟨f1, f2, f3⟩) = max 0 (min 100 (jsRound q)) := by
  refine ⟨_, scoreRawArg_eq_fin ⟨f1, f2, f3⟩, ?_, ?_⟩ <;>
    rw [scoreRawArg_eq_fin] <;> rfl
